import Mathlib

/-!
Verification development for the Localis first-run onboarding engine
(`app.js`, `setup_wizard.js`).  The narrator state machine (FRT), its
required-action gates, the questionnaire wizard (RPG) and the text
utilities are shallowly embedded as executable Lean definitions, and the
behavioural properties of the engine are proved against them.

Strings are modelled by Lean `String` (a wrapper around `List Char`);
JavaScript `trim`, `toLowerCase` and the regex replacements used by the
code are modelled explicitly below.
-/

namespace Localis

/-! ## JavaScript string utilities -/

/-- Whitespace class used by JavaScript `trim` and the `\s` regex class
(for the characters that occur in this application). -/
def isJsWs (c : Char) : Bool :=
  c = ' ' || c = '\t' || c = '\n' || c = '\r' || c = '\x0b' || c = '\x0c' || c = ' '

/-- Drop leading whitespace. -/
def trimLeftL (l : List Char) : List Char := l.dropWhile isJsWs

/-- Drop trailing whitespace. -/
def trimRightL (l : List Char) : List Char := (l.reverse.dropWhile isJsWs).reverse

/-- JavaScript `String.prototype.trim` on character lists. -/
def jsTrimL (l : List Char) : List Char := trimRightL (trimLeftL l)

/-- JavaScript `String.prototype.trim`. -/
def jsTrim (s : String) : String := ⟨jsTrimL s.data⟩

/-- JavaScript `String.prototype.toLowerCase` (ASCII case mapping). -/
def jsToLower (s : String) : String := ⟨s.data.map Char.toLower⟩

/-! ## Required-action gates

`FRT.requiredAction` is `{kind, satisfied, attempts, baselineQuestion}`,
plus a `soft_after` field assigned on gate initialization.  An absent
(`undefined`) `soft_after` is modelled as `none`; the JS comparison
`attempts >= undefined` is false. -/

inductive GateKind
  | chat_any
  | chat_repeat
  | final_review_confirm
deriving DecidableEq, Repr

structure GateState where
  kind : Option GateKind
  satisfied : Bool
  attempts : Nat
  baselineQuestion : Option String
  soft_after : Option Nat
deriving DecidableEq, Repr

/-- The initial `FRT.requiredAction` literal: kind null, unsatisfied, no
baseline, `soft_after` not yet assigned. -/
def initialRequiredAction : GateState :=
  { kind := none, satisfied := false, attempts := 0, baselineQuestion := none,
    soft_after := none }

/-- JS `attempts >= soft_after` where `soft_after` may be `undefined`. -/
def softGe (a : Nat) (s : Option Nat) : Bool :=
  match s with
  | some n => a ≥ n
  | none => false

/-- A gate descriptor as authored in the script tables:
`requires: { kind, soft_after? }`. -/
structure GateSpec where
  kind : GateKind
  soft_after : Option Nat := none
deriving DecidableEq, Repr

/-- One page of narration, restricted to the attributes the narrator
engine branches on (`onEnter` hook name and the `requires` gate). -/
structure Part where
  onEnter : Option String := none
  requires : Option GateSpec := none
deriving DecidableEq, Repr

/-- Gate state update performed at the end of `renderPart`
(the `if (part.requires) ... else ...` block).  Note that both branches
reset `baselineQuestion` to null, and that `part.requires.soft_after || 999`
yields 999 when `soft_after` is absent or zero (JS falsiness).  The
no-gate branch does not assign `soft_after`, so the previous value is
kept. -/
def initGate (g : GateState) (p : Part) : GateState :=
  match p.requires with
  | some r =>
      { kind := some r.kind, satisfied := false, attempts := 0,
        baselineQuestion := none,
        soft_after := some (match r.soft_after with
          | some n => if n = 0 then 999 else n
          | none => 999) }
  | none =>
      { g with kind := none, satisfied := true, attempts := 0,
               baselineQuestion := none }

/-- The forward-navigation gate check in the `btnNext` click handler:
`FRT.requiredAction.kind && !FRT.requiredAction.satisfied`. -/
def gateBlocksForward (g : GateState) : Bool :=
  g.kind.isSome && !g.satisfied

/-- Required-action bookkeeping performed by `api.chat` after a tutorial
chat exchange completes (the `if (FRT.requiredAction.kind && !...satisfied)`
block): `chat_any` is satisfied by any message and records the trimmed
message as `baselineQuestion`; `chat_repeat` is satisfied on a
trimmed/lowercased match against the recorded baseline, and otherwise
increments `attempts` and soft-passes once `attempts >= soft_after`. -/
def chatGate (g : GateState) (promptText : String) : GateState :=
  if g.kind.isSome && !g.satisfied then
    let userMsg := jsToLower (jsTrim promptText)
    match g.kind with
    | some GateKind.chat_any =>
        { g with satisfied := true, baselineQuestion := some (jsTrim promptText) }
    | some GateKind.chat_repeat =>
        let baseline := jsToLower (jsTrim (g.baselineQuestion.getD ""))
        if userMsg = baseline then
          { g with satisfied := true }
        else
          let a := g.attempts + 1
          if softGe a g.soft_after then
            { g with attempts := a, satisfied := true }
          else
            { g with attempts := a }
    | _ => g
  else g

/-! ## Script tables

`FRT.scripts` maps each track name to an array of parts whose index 0 is
`null`; only the attributes the engine branches on (`onEnter`,
`requires`) are carried, step text being inert data for the properties
proved here. -/

inductive Track
  | intro
  | model
  | system_prompt
  | context
  | memory
deriving DecidableEq, Repr

/-- The `FRT.scripts` table: for each track, the list of parts with
index 0 reserved (`null`, modelled as `none`). -/
def scripts : Track → List (Option Part)
  | Track.intro =>
      [none, some {}, some {}, some {}, some {}, some {}]
  | Track.model =>
      [none, some {}, some {}, some {},
       some { onEnter := some "SHOW_MODEL_LOADER_RAIL" }]
  | Track.system_prompt =>
      [none, some {}, some {}, some {},
       some { onEnter := some "ENABLE_SPLIT_CHAT",
              requires := some { kind := GateKind.chat_any } },
       some {},
       some { onEnter := some "SWAP_PROMPT_PIRATE" },
       some { requires := some { kind := GateKind.chat_repeat, soft_after := some 2 } },
       some { onEnter := some "SWAP_PROMPT_DEFAULT" },
       some {},
       some { onEnter := some "LAUNCH_SYSTEM_PROMPT_RPG" },
       some { onEnter := some "DISABLE_SPLIT_CHAT" },
       some {}]
  | Track.context =>
      [none, some {}, some {},
       some { onEnter := some "LOAD_CONTEXT_PACKET" },
       some {}]
  | Track.memory =>
      [none, some {}, some {}, some {}, some {},
       some { requires := some { kind := GateKind.final_review_confirm },
              onEnter := some "SHOW_FINAL_REVIEW" }]

/-- `getMaxPart()` = `getTrack().length - 1`. -/
def getMaxPart (t : Track) : Nat := (scripts t).length - 1

/-- `getTrack()[i]`: the part at index `i`, `none` for the reserved
index 0 and out-of-range indices. -/
def partAt (t : Track) (i : Nat) : Option Part := ((scripts t).getD i none)

/-! ## Narrator engine state and transitions -/

inductive Stage
  | none
  | boot
  | script
deriving DecidableEq, Repr

/-- The mutable narrator state relevant to navigation: the play-head
(`track`, `partIndex`), the typing/skip flags, the required-action gate,
whether `endTutorial` has torn the tutorial down, and the persistent
first-run-complete flag. -/
structure FRTState where
  stage : Stage
  track : Track
  partIndex : Nat
  isTyping : Bool
  skipRequested : Bool
  gate : GateState
  completed : Bool
  firstRunComplete : Bool
deriving DecidableEq, Repr

/-- State effect of `renderPart(index)`: a missing part returns
unchanged; otherwise the play-head moves, the typing/skip flags end the
render cleared (`FRT.isTyping = false; FRT.skipRequested = false`), and
the gate state is re-initialized from the part's `requires`. -/
def renderPartSt (s : FRTState) (index : Nat) : FRTState :=
  match partAt s.track index with
  | none => s
  | some p =>
      { s with partIndex := index, isTyping := false, skipRequested := false,
               gate := initGate s.gate p }

/-- State effect of `endTutorial()`: `markFirstRunComplete()` writes the
persistent flag and the tutorial surfaces are torn down. -/
def endTutorialSt (s : FRTState) : FRTState :=
  { s with completed := true, firstRunComplete := true }

/-- The `FRT.els.btnNext` click handler: boot hand-off, early-click skip,
the unsatisfied-gate block (which increments `attempts` except for
`final_review_confirm`), the `model` part-4 dead end, in-track advance,
and the track transitions `intro → model → system_prompt → context →
memory → endTutorial` (the `model → system_prompt` edge being driven by
the model loader, not this handler). -/
def btnNextClick (s : FRTState) : FRTState :=
  if s.stage = Stage.boot then
    renderPartSt { s with stage := Stage.script } 1
  else if s.isTyping then
    { s with skipRequested := true }
  else if gateBlocksForward s.gate then
    if s.gate.kind = some GateKind.final_review_confirm then s
    else { s with gate := { s.gate with attempts := s.gate.attempts + 1 } }
  else if s.track = Track.model ∧ s.partIndex = 4 then s
  else if s.partIndex < getMaxPart s.track then
    renderPartSt s (s.partIndex + 1)
  else
    match s.track with
    | Track.intro => renderPartSt { s with track := Track.model, partIndex := 0 } 1
    | Track.system_prompt => renderPartSt { s with track := Track.context, partIndex := 0 } 1
    | Track.context => renderPartSt { s with track := Track.memory, partIndex := 0 } 1
    | Track.memory => endTutorialSt s
    | Track.model => s

/-- The `FRT.els.btnBack` click handler: skip while typing, otherwise
decrement the play-head, floored at part 1. -/
def btnBackClick (s : FRTState) : FRTState :=
  if s.isTyping then { s with skipRequested := true }
  else if s.partIndex > 1 then renderPartSt s (s.partIndex - 1)
  else s

/-- State effect of a tutorial chat exchange (`api.chat` in tutorial
mode): only the required-action gate is updated. -/
def chatSt (s : FRTState) (msg : String) : FRTState :=
  { s with gate := chatGate s.gate msg }

/-- The engine state right after `enterFirstRunStep1` has set
`stage = "script"` and rendered `intro` part 1. -/
def initState : FRTState :=
  renderPartSt
    { stage := Stage.script, track := Track.intro, partIndex := 0,
      isTyping := false, skipRequested := false,
      gate := initialRequiredAction, completed := false,
      firstRunComplete := false } 1

/-- A forward click performed when no gate is pending: the external
satisfaction events (`api.chat` success, final-review commit) set
`satisfied := true`, after which the click handler runs. -/
def clickNoGatePending (s : FRTState) : FRTState :=
  btnNextClick { s with gate := { s.gate with satisfied := true } }

/-- The `api.loadModel` success callback during the tutorial: the track
becomes `system_prompt` and part 1 is rendered. -/
def loadModelTransition (s : FRTState) : FRTState :=
  renderPartSt { s with track := Track.system_prompt, partIndex := 1 } 1

/-! ## Typewriter animator (`UX.typeWriter`)

The cancellable character-by-character animation is modelled as a loop
that polls the `shouldSkip` flag before each character; the flag's value
at successive polls is an arbitrary Boolean sequence (the "oracle"),
covering every possible moment at which a skip can be requested.  On a
positive poll the element's text is set to the whole string and the
promise resolves; otherwise one character is appended. -/

structure TWResult where
  display : List Char
  resolved : Bool
deriving DecidableEq, Repr

/-- The `typeChar` loop of `UX.typeWriter`: poll `shouldSkip`, write the
full text and resolve on skip, append the next character otherwise, and
resolve when the text is exhausted. -/
def typeCharLoop (orig disp rem : List Char) (oracle : Nat → Bool) (n : Nat) :
    TWResult :=
  if oracle n then { display := orig, resolved := true }
  else
    match rem with
    | [] => { display := disp, resolved := true }
    | c :: rest => typeCharLoop orig (disp ++ [c]) rest oracle (n + 1)

/-- `UX.typeWriter`: the promise body polls `shouldSkip` once, then runs
the `typeChar` loop starting from an empty surface. -/
def typeWriter (text : List Char) (oracle : Nat → Bool) : TWResult :=
  if oracle 0 then { display := text, resolved := true }
  else typeCharLoop text [] text oracle 1

/-- The `line` step loop of `renderPart`: each segment is animated in
sequence into its own span (with its own view of the skip flag), and the
rendered line is the concatenation of the spans. -/
def renderLineSegs (segs : List (List Char)) (oracle : Nat → Nat → Bool) :
    List Char :=
  match segs with
  | [] => []
  | seg :: rest =>
      (typeWriter seg (oracle 0)).display
        ++ renderLineSegs rest (fun i => oracle (i + 1))

/-! ## Questionnaire wizard (RPG) -/

/-- The multi-choice checkbox `change` handler of `RPG.renderMultiChoice`:
checking beyond `maxChoices` reverts the checkbox and leaves the answer
array untouched; otherwise the choice is appended, and unchecking
filters it out.  The returned pair is (answer array, checkbox state). -/
def multiChoiceChange (answers : List String) (maxChoices : Nat)
    (choice : String) (nowChecked : Bool) : List String × Bool :=
  if nowChecked then
    if answers.length ≥ maxChoices then (answers, false)
    else (answers ++ [choice], true)
  else (answers.filter (fun c => c ≠ choice), false)

/-! ## Final-review commit (`btnFinalReviewConfirm` click handler) -/

/-- Tier-A cleaning before commit: trim the values, drop empty ones. -/
def cleanTierA (tierA : List (String × String)) : List (String × String) :=
  tierA.filterMap (fun kv =>
    let trimmed := jsTrim kv.2
    if trimmed = "" then none else some (kv.1, trimmed))

/-- Tier-B transformation before commit: trim keys and values, drop
empty ones, and deduplicate keys with JS `Map` semantics (last value
wins, first-insertion order kept). -/
def tierBDedup (tierB : List (String × String)) : List (String × String) :=
  tierB.foldl (fun acc kv =>
    let k := jsTrim kv.1
    let v := jsTrim kv.2
    if k = "" ∨ v = "" then acc
    else if acc.any (fun p => p.1 = k) then
      acc.map (fun p => if p.1 = k then (k, v) else p)
    else acc ++ [(k, v)]) []

/-- The UI/storage state touched by the final-review commit handler:
the staged system prompt, tier-A and tier-B data held in session
storage, the commit button, the inline error, the review overlay, and
whether `endTutorial` has run. -/
structure ReviewState where
  stagedPrompt : String
  stagedTierA : List (String × String)
  stagedTierB : List (String × String)
  btnEnabled : Bool
  errorShown : Bool
  overlayOpen : Bool
  tutorialEnded : Bool
  firstRunComplete : Bool
deriving DecidableEq, Repr

/-- The `btnFinalReviewConfirm` click handler, parameterized by whether
the `/tutorial/commit` request succeeds.  The handler only reads the
staged data (to build the payload from `cleanTierA`/`tierBDedup`); on
failure it re-enables the button and shows the inline error, leaving the
overlay and all staged data untouched; on success it closes the overlay
and `endTutorial` runs. -/
def finalReviewConfirmClick (s : ReviewState) (commitOk : Bool) : ReviewState :=
  if commitOk then
    { s with overlayOpen := false, btnEnabled := false,
             tutorialEnded := true, firstRunComplete := true }
  else
    { s with btnEnabled := true, errorShown := true }

/-! ## Name placeholder substitution (`replaceNamePlaceholder`) -/

/-- JS `text.replace(/{name}/g, repl)` for a plain replacement string:
every literal occurrence of the placeholder is replaced. -/
def replName (repl : List Char) : List Char → List Char
  | '\x7b' :: 'n' :: 'a' :: 'm' :: 'e' :: '\x7d' :: rest => repl ++ replName repl rest
  | c :: rest => c :: replName repl rest
  | [] => []

/-- Scan step for `text.replace(/,\s*\{name\}/g, "")`, fuelled by the
input length: each comma followed by optional whitespace and the
placeholder is deleted; the scan resumes after the match, or after the
comma when the tail does not match.  Every step consumes at least one
character, so `l.length` fuel always suffices. -/
def removeCommaNameAux : Nat → List Char → List Char
  | 0, l => l
  | _ + 1, [] => []
  | fuel + 1, ',' :: rest =>
      let after := rest.dropWhile isJsWs
      if after.take 6 = ['\x7b', 'n', 'a', 'm', 'e', '\x7d'] then
        removeCommaNameAux fuel (after.drop 6)
      else ',' :: removeCommaNameAux fuel rest
  | fuel + 1, c :: rest => c :: removeCommaNameAux fuel rest

/-- JS `text.replace(/,\s*\{name\}/g, "")`. -/
def removeCommaName (l : List Char) : List Char := removeCommaNameAux l.length l

/-- The per-track name-usage flags (`FRT.nameUsedByTrack`) together with
the ambient data `replaceNamePlaceholder` reads: the
`first-run-tutorial` body class, the current track and the stored
preferred name. -/
structure NameSubstCtx where
  firstRunTutorial : Bool
  track : Track
  storedName : String
  nameUsed : Track → Bool

/-- The name-limited tracks (`limitedTracks = {"system_prompt",
"context", "memory"}`). -/
def limitedTracks (t : Track) : Bool :=
  t = Track.system_prompt || t = Track.context || t = Track.memory

/-- `replaceNamePlaceholder(text)`: during the first-run tutorial on the
`intro`/`model` tracks the placeholder always becomes `"user"`; in a
name-limited track with a stored name, the first call of the track
replaces every occurrence with the name and marks the track used, and
later calls remove occurrences together with a preceding comma and
whitespace; otherwise every occurrence becomes the stored name or
`"user"`. -/
def replaceNamePlaceholder (ctx : NameSubstCtx) (text : String) :
    String × NameSubstCtx :=
  if ctx.firstRunTutorial ∧ (ctx.track = Track.intro ∨ ctx.track = Track.model) then
    (⟨replName "user".data text.data⟩, ctx)
  else
    let name := ctx.storedName
    let finalName := if name = "" then "user" else name
    if name ≠ "" ∧ limitedTracks ctx.track = true then
      if ctx.nameUsed ctx.track = false then
        (⟨replName finalName.data text.data⟩,
         { ctx with nameUsed := fun t => if t = ctx.track then true else ctx.nameUsed t })
      else
        (⟨replName [] (removeCommaName text.data)⟩, ctx)
    else
      (⟨replName finalName.data text.data⟩, ctx)

/-! ## Prompt generation (`RPG.generateSystemPrompt`) -/

/-- The nested identity record of the questionnaire answers. -/
structure IdentityRec where
  preferred_name : String := ""
  location : String := ""
  timezone : String := ""
  language_preferences : String := "English"
deriving DecidableEq, Repr

/-- The questionnaire answer set (`RPG.answers`). -/
structure Answers where
  name : String := ""
  domain : String := ""
  style : String := ""
  capabilities : List String := []
  identity : IdentityRec := {}
  custom : String := ""
deriving DecidableEq, Repr

/-- The `domainMap` literal of `generateSystemPrompt`. -/
def domainMap (d : String) : Option String :=
  if d = "Software Development / Tech" then
    some "working in software development and technology"
  else if d = "Creative Work (Writing, Art)" then
    some "focused on creative work, including writing and art"
  else if d = "Business / Entrepreneurship" then
    some "engaged in business and entrepreneurship"
  else if d = "Student / Learning" then
    some "dedicated to learning and academic growth"
  else if d = "Research / Academia" then
    some "pursuing research and academic excellence"
  else if d = "Just Exploring" then
    some "exploring the possibilities of AI"
  else none

/-- The `styleMap` literal of `generateSystemPrompt`. -/
def styleMap (s : String) : Option String :=
  if s = "Professional & Concise" then
    some "Maintain a professional, concise tone. Be direct and clear, providing exactly what\x27s needed without unnecessary elaboration."
  else if s = "Casual & Conversational" then
    some "Keep things friendly and conversational. Use a relaxed, approachable tone that feels like talking with a knowledgeable friend."
  else if s = "Detailed & Thorough" then
    some "Provide comprehensive, well-explained responses. Break down complex ideas into clear steps and ensure thorough understanding of each concept."
  else if s = "Creative & Playful" then
    some "Embrace creativity and playfulness in your responses. Make interactions engaging and fun while delivering helpful, accurate information."
  else none

/-- The capabilities clause: the selected capabilities are lowercased
and rendered as "You specialize in x." for one item, "You excel at x
and y." for two, and an Oxford-comma list "You excel at x, y, and z."
for more (`capsList.pop()` removes the last item, the rest are joined
with ", "). -/
def capsClause (capabilities : List String) : String :=
  match capabilities.map jsToLower with
  | [] => ""
  | [c] => "\n\nYou specialize in " ++ c ++ "."
  | [c1, c2] => "\n\nYou excel at " ++ c1 ++ " and " ++ c2 ++ "."
  | l => "\n\nYou excel at " ++ String.intercalate ", " l.dropLast
           ++ ", and " ++ l.getLastD "" ++ "."

/-- The optional ` for <name>` clause (`if (name && name.trim())`). -/
def nameClause (a : Answers) : String :=
  if a.identity.preferred_name ≠ "" ∧ jsTrim a.identity.preferred_name ≠ "" then
    " for " ++ jsTrim a.identity.preferred_name
  else ""

/-- The optional `, <domain phrase>` clause (`if (domain && domainMap[domain])`). -/
def domainClause (a : Answers) : String :=
  if a.domain ≠ "" then
    match domainMap a.domain with
    | some d => ", " ++ d
    | none => ""
  else ""

/-- The optional style paragraph (`if (style && styleMap[style])`). -/
def styleClause (a : Answers) : String :=
  if a.style ≠ "" then
    match styleMap a.style with
    | some st => "\n\n" ++ st
    | none => ""
  else ""

/-- The optional custom-instructions paragraph
(`if (custom && custom.trim())`). -/
def customClause (a : Answers) : String :=
  if a.custom ≠ "" ∧ jsTrim a.custom ≠ "" then
    "\n\nAdditional guidance: " ++ jsTrim a.custom
  else ""

/-- The `prompt` accumulator of `RPG.generateSystemPrompt` just before
the final `trim`. -/
def promptBody (a : Answers) : String :=
  "You are an AI assistant" ++ nameClause a ++ domainClause a ++ "."
    ++ styleClause a ++ capsClause a.capabilities ++ customClause a

/-- `RPG.generateSystemPrompt(answers)`: the assembled prompt, trimmed. -/
def generateSystemPrompt (a : Answers) : String := jsTrim (promptBody a)

/-- `s` contains `sub` as a contiguous substring. -/
def strContains (s sub : String) : Prop :=
  ∃ u v : List Char, s.data = u ++ sub.data ++ v

/-! ## Theorems -/

/-- Claim C1: the `chat_repeat` check in `api.chat` is indeed
trim/lowercase-insensitive when the gate still holds a baseline — with
`baselineQuestion = "What's 2+2?"` the submission `"  what's 2+2?  "`
satisfies it — but in the actual flow the baseline recorded by the
`chat_any` gate never survives to the `chat_repeat` part: `renderPart`
resets `baselineQuestion` to null on every part render, so after
satisfying `chat_any` at `system_prompt` part 4 with `"What's 2+2?"` and
advancing to part 7, the same submission leaves the gate unsatisfied and
merely increments `attempts`. -/
theorem C1_chat_repeat_baseline_wiped :
    (chatGate
        { kind := some GateKind.chat_repeat, satisfied := false, attempts := 0,
          baselineQuestion := some "What\x27s 2+2?", soft_after := some 2 }
        "  what\x27s 2+2?  ").satisfied = true
    ∧
    (let sBase : FRTState :=
      { stage := Stage.script, track := Track.system_prompt, partIndex := 0,
        isTyping := false, skipRequested := false,
        gate := initialRequiredAction, completed := false, firstRunComplete := false };
     let s4 := renderPartSt sBase 4;
     let s4a := chatSt s4 "What\x27s 2+2?";
     let s7 := btnNextClick (btnNextClick (btnNextClick s4a));
     let s7a := chatSt s7 "  what\x27s 2+2?  ";
     s4.gate.kind = some GateKind.chat_any
     ∧ s4a.gate.satisfied = true
     ∧ s4a.gate.baselineQuestion = some "What\x27s 2+2?"
     ∧ s7.partIndex = 7
     ∧ s7.gate.kind = some GateKind.chat_repeat
     ∧ s7.gate.baselineQuestion = none
     ∧ s7a.gate.satisfied = false
     ∧ s7a.gate.attempts = 1) := by
  refine ⟨by decide, ?_⟩
  refine ⟨by decide, by decide, by decide, by decide, by decide, by decide, by decide, by decide⟩

set_option maxRecDepth 8000 in
set_option maxHeartbeats 2000000 in
/-- Claim C2 (counterexample): repeatedly performing the forward action
from `intro` part 1 — even granting that every gate is satisfied and no
typing is in progress — never completes the tutorial: after 8 clicks the
play-head sits at `model` part 4, which the click handler treats as a
dead end (`if (FRT.track === "model" && FRT.partIndex === 4) return`),
so a 100-click run is still there with the engine not completed and the
dead-end state a fixed point of the forward action. -/
theorem C2_forward_only_counterexample :
    (clickNoGatePending^[8] initState).track = Track.model
    ∧ (clickNoGatePending^[8] initState).partIndex = 4
    ∧ clickNoGatePending^[100] initState = clickNoGatePending^[8] initState
    ∧ (clickNoGatePending^[100] initState).completed = false
    ∧ (clickNoGatePending^[100] initState).firstRunComplete = false
    ∧ clickNoGatePending (clickNoGatePending^[8] initState)
        = clickNoGatePending^[8] initState := by
  decide

set_option maxRecDepth 8000 in
set_option maxHeartbeats 2000000 in
/-- Claim C2 (amended): forward clicks from `intro` part 1 (gates
satisfied, no typing) reach the `model` track's part-4 dead end after 8
clicks; the `model → system_prompt` transition is driven by the model
loader (`api.loadModel`), not the forward action, and from
`system_prompt` part 1 twenty forward clicks reach the `memory` track's
final part, whereupon one further forward action completes the tutorial
and sets the persistent first-run-complete flag. -/
theorem C2_forward_amended :
    (clickNoGatePending^[8] initState).track = Track.model
    ∧ (clickNoGatePending^[8] initState).partIndex = 4
    ∧ (let t0 := loadModelTransition (clickNoGatePending^[8] initState);
       let t20 := clickNoGatePending^[20] t0;
       t20.track = Track.memory
       ∧ t20.partIndex = getMaxPart Track.memory
       ∧ t20.completed = false
       ∧ (clickNoGatePending t20).completed = true
       ∧ (clickNoGatePending t20).firstRunComplete = true) := by
  decide

/-- Claim C3: for a `chat_repeat` gate with `soft_after = 2` and
`attempts = 0`, one mismatched tutorial chat submission leaves it
unsatisfied, a second mismatched submission satisfies it (the soft-pass
fires on the count alone) and unlocks forward navigation, and any
further submission leaves the gate unchanged. -/
theorem C3_chat_repeat_soft_pass (g : GateState) (m1 m2 m3 : String)
    (hk : g.kind = some GateKind.chat_repeat) (hs : g.satisfied = false)
    (ha : g.attempts = 0) (hsa : g.soft_after = some 2)
    (h1 : jsToLower (jsTrim m1) ≠ jsToLower (jsTrim (g.baselineQuestion.getD "")))
    (h2 : jsToLower (jsTrim m2) ≠ jsToLower (jsTrim (g.baselineQuestion.getD ""))) :
    (chatGate g m1).satisfied = false
    ∧ (chatGate (chatGate g m1) m2).satisfied = true
    ∧ gateBlocksForward (chatGate (chatGate g m1) m2) = false
    ∧ chatGate (chatGate (chatGate g m1) m2) m3 = chatGate (chatGate g m1) m2 := by
  obtain ⟨k, sat, att, base, soft⟩ := g
  simp only at hk hs ha hsa h1 h2
  subst hk hs ha hsa
  have e1 : chatGate
      { kind := some GateKind.chat_repeat, satisfied := false, attempts := 0,
        baselineQuestion := base, soft_after := some 2 } m1
      = { kind := some GateKind.chat_repeat, satisfied := false, attempts := 1,
          baselineQuestion := base, soft_after := some 2 } := by
    simp [chatGate, h1, softGe]
  rw [e1]
  have e2 : chatGate
      { kind := some GateKind.chat_repeat, satisfied := false, attempts := 1,
        baselineQuestion := base, soft_after := some 2 } m2
      = { kind := some GateKind.chat_repeat, satisfied := true, attempts := 2,
          baselineQuestion := base, soft_after := some 2 } := by
    simp [chatGate, h2, softGe]
  rw [e2]
  refine ⟨rfl, rfl, rfl, ?_⟩
  simp [chatGate]

/-- Witness for C3 at a concrete gate and concrete mismatched
submissions. -/
theorem C3_chat_repeat_soft_pass_witness :
    (chatGate (chatGate
        { kind := some GateKind.chat_repeat, satisfied := false, attempts := 0,
          baselineQuestion := none, soft_after := some 2 }
        "hello") "hi").satisfied = true := by
  exact (C3_chat_repeat_soft_pass
    { kind := some GateKind.chat_repeat, satisfied := false, attempts := 0,
      baselineQuestion := none, soft_after := some 2 }
    "hello" "hi" "anything" rfl rfl rfl rfl (by decide) (by decide)).2.1

/-- Claim C6: a part with no `requires` descriptor clears the gate on
render — kind null, `satisfied = true` — and the forward click's gate
check (`kind && !satisfied`) therefore never blocks navigation from such
a part. -/
theorem C6_no_gate_never_blocks (t : Track) (i : Nat) (p : Part) (g : GateState)
    (_hp : partAt t i = some p) (hr : p.requires = none) :
    (initGate g p).kind = none
    ∧ (initGate g p).satisfied = true
    ∧ gateBlocksForward (initGate g p) = false := by
  simp [initGate, hr, gateBlocksForward]

/-- Witness for C6 at `intro` part 1. -/
theorem C6_no_gate_never_blocks_witness :
    (initGate initialRequiredAction {}).satisfied = true := by
  exact (C6_no_gate_never_blocks Track.intro 1 {} initialRequiredAction
    (by decide) rfl).2.1

/-- Claim C10: a gate-blocked forward click and a mismatched tutorial
chat submission both increment `FRT.requiredAction.attempts`; starting
from the `chat_repeat` gate initialized at `system_prompt` part 7
(`soft_after = 2`), two blocked forward clicks leave `attempts = 2` with
the gate still unsatisfied, and a single further mismatched chat
submission pushes `attempts` past `soft_after`, satisfies the gate, and
the next forward click advances the play-head to part 8. -/
theorem C10_shared_attempts_counter (g : GateState) (m : String)
    (hm : jsToLower (jsTrim m) ≠ "") :
    (let s0 := renderPartSt
      { stage := Stage.script, track := Track.system_prompt, partIndex := 0,
        isTyping := false, skipRequested := false, gate := g,
        completed := false, firstRunComplete := false } 7;
     let s1 := btnNextClick s0;
     let s2 := btnNextClick s1;
     let s3 := chatSt s2 m;
     s0.gate.attempts = 0
     ∧ s1.gate.attempts = 1 ∧ s1.partIndex = 7
     ∧ s2.gate.attempts = 2 ∧ s2.gate.satisfied = false ∧ s2.partIndex = 7
     ∧ s3.gate.attempts = 3 ∧ s3.gate.satisfied = true
     ∧ gateBlocksForward s3.gate = false
     ∧ (btnNextClick s3).partIndex = 8) := by
  intro s0 s1 s2 s3
  have hs2 : s2 =
      { stage := Stage.script, track := Track.system_prompt, partIndex := 7,
        isTyping := false, skipRequested := false,
        gate := { kind := some GateKind.chat_repeat, satisfied := false,
                  attempts := 2, baselineQuestion := none, soft_after := some 2 },
        completed := false, firstRunComplete := false } := rfl
  have hs3 : s3 =
      { stage := Stage.script, track := Track.system_prompt, partIndex := 7,
        isTyping := false, skipRequested := false,
        gate := { kind := some GateKind.chat_repeat, satisfied := true,
                  attempts := 3, baselineQuestion := none, soft_after := some 2 },
        completed := false, firstRunComplete := false } := by
    show chatSt s2 m = _
    rw [hs2]
    have hb : jsToLower (jsTrim "") = "" := rfl
    simp [chatSt, chatGate, softGe, hb, hm]
  refine ⟨rfl, rfl, rfl, rfl, rfl, rfl, ?_, ?_, ?_, ?_⟩
  · rw [hs3]
  · rw [hs3]
  · rw [hs3]; rfl
  · rw [hs3]; rfl

/-- Witness for C10 with the mismatched submission `"hello"`. -/
theorem C10_shared_attempts_counter_witness :
    (chatSt (btnNextClick (btnNextClick (renderPartSt
      { stage := Stage.script, track := Track.system_prompt, partIndex := 0,
        isTyping := false, skipRequested := false, gate := initialRequiredAction,
        completed := false, firstRunComplete := false } 7))) "hello").gate.satisfied
      = true := by
  exact (C10_shared_attempts_counter initialRequiredAction "hello" (by decide)).2.2.2.2.2.2.2.1

/-- Helper: the `typeChar` loop always resolves with the full text on
the surface, whatever the skip oracle does, as long as the text typed so
far plus the remainder is the original string. -/
theorem typeCharLoop_full (oracle : Nat → Bool) :
    ∀ (rem disp orig : List Char) (n : Nat), disp ++ rem = orig →
      (typeCharLoop orig disp rem oracle n).display = orig ∧
      (typeCharLoop orig disp rem oracle n).resolved = true := by
  intro rem
  induction rem with
  | nil =>
      intro disp orig n h
      rw [typeCharLoop]
      by_cases ho : oracle n <;> simp [ho]
      simpa using h
  | cons c rest ih =>
      intro disp orig n h
      rw [typeCharLoop]
      by_cases ho : oracle n
      · simp [ho]
      · simp only [ho, if_false, Bool.false_eq_true]
        exact ih (disp ++ [c]) orig (n + 1) (by simpa [List.append_assoc] using h)

/-- Helper: the `line` step loop renders the concatenation of the full
segment texts, whatever the skip oracles do. -/
theorem renderLineSegs_join :
    ∀ (segs : List (List Char)) (oracle : Nat → Nat → Bool),
      renderLineSegs segs oracle = segs.flatten := by
  intro segs
  induction segs with
  | nil => intro oracle; rfl
  | cons seg rest ih =>
      intro oracle
      rw [renderLineSegs, List.flatten_cons]
      have h1 : (typeWriter seg (oracle 0)).display = seg := by
        rw [typeWriter]
        by_cases ho : oracle 0 0
        · simp [ho]
        · simp only [ho, if_false, Bool.false_eq_true]
          exact (typeCharLoop_full (oracle 0) seg [] seg 1 rfl).1
      rw [h1, ih]

/-- Claim C7: whatever the skip flag does during the animation of a
`line` step — including becoming set at any poll — the display surface
ends up with the full, untruncated text of every segment, and the
animation resolves successfully (skip is not an error). -/
theorem C7_skip_yields_full_text (text : List Char) (oracle : Nat → Bool)
    (segs : List (List Char)) (segOracle : Nat → Nat → Bool) :
    (typeWriter text oracle).display = text
    ∧ (typeWriter text oracle).resolved = true
    ∧ renderLineSegs segs segOracle = segs.flatten := by
  refine ⟨?_, ?_, renderLineSegs_join segs segOracle⟩
  · rw [typeWriter]
    by_cases ho : oracle 0
    · simp [ho]
    · simp only [ho, if_false, Bool.false_eq_true]
      exact (typeCharLoop_full oracle text [] text 1 rfl).1
  · rw [typeWriter]
    by_cases ho : oracle 0
    · simp [ho]
    · simp only [ho, if_false, Bool.false_eq_true]
      exact (typeCharLoop_full oracle text [] text 1 rfl).2

/-- Claim C8: checking an additional choice when the answer already
holds `maxChoices` selections is a no-op — the stored answer array is
unchanged and the just-checked control is reverted to unchecked. -/
theorem C8_multi_choice_cap (answers : List String) (maxChoices : Nat)
    (choice : String) (h : answers.length = maxChoices) :
    multiChoiceChange answers maxChoices choice true = (answers, false) := by
  rw [multiChoiceChange]
  rw [if_pos rfl, if_pos (ge_of_eq h)]

/-- Witness for C8 at a concrete full selection. -/
theorem C8_multi_choice_cap_witness :
    multiChoiceChange ["Writing & Brainstorming", "Research & Learning",
      "Creative Projects"] 3 "General Conversation" true
      = (["Writing & Brainstorming", "Research & Learning",
          "Creative Projects"], false) := by
  exact C8_multi_choice_cap _ 3 "General Conversation" rfl

/-- Claim C9: when the final commit fails, the commit control is
re-enabled, the inline error is surfaced, the review overlay stays open,
all staged data (prompt text, tier-A, tier-B) is preserved unchanged,
and the tutorial does not end; retrying from that state with a
successful commit — with the staged data still intact — is what ends
the tutorial and sets the first-run flag. -/
theorem C9_commit_failure_retryable (s : ReviewState)
    (hov : s.overlayOpen = true) (hte : s.tutorialEnded = false) :
    (finalReviewConfirmClick s false).btnEnabled = true
    ∧ (finalReviewConfirmClick s false).errorShown = true
    ∧ (finalReviewConfirmClick s false).overlayOpen = true
    ∧ (finalReviewConfirmClick s false).stagedPrompt = s.stagedPrompt
    ∧ (finalReviewConfirmClick s false).stagedTierA = s.stagedTierA
    ∧ (finalReviewConfirmClick s false).stagedTierB = s.stagedTierB
    ∧ (finalReviewConfirmClick s false).tutorialEnded = false
    ∧ (finalReviewConfirmClick (finalReviewConfirmClick s false) true).tutorialEnded = true
    ∧ (finalReviewConfirmClick (finalReviewConfirmClick s false) true).firstRunComplete = true
    ∧ (finalReviewConfirmClick (finalReviewConfirmClick s false) true).stagedPrompt = s.stagedPrompt
    ∧ (finalReviewConfirmClick s true).tutorialEnded = true := by
  simp [finalReviewConfirmClick, hov, hte]

/-- Claim C5: within a name-limited track with the stored name
`"Rishi"`, the first `{name}` rendered anywhere in the track becomes the
name and the track is marked used, and any later occurrence in the same
track — even in a different part — is removed together with the
preceding comma and whitespace: `"Thanks, {name}."` renders as
`"Thanks, Rishi."` on first use and as `"Thanks."` on any later use. -/
theorem C5_name_once_per_track (tr : Track) (frt : Bool)
    (htr : limitedTracks tr = true) :
    (let ctx0 : NameSubstCtx :=
      { firstRunTutorial := frt, track := tr, storedName := "Rishi",
        nameUsed := fun _ => false };
     let r1 := replaceNamePlaceholder ctx0 "Thanks, \x7bname\x7d.";
     let r2 := replaceNamePlaceholder r1.2 "Thanks, \x7bname\x7d.";
     r1.1 = "Thanks, Rishi."
     ∧ r1.2.nameUsed tr = true
     ∧ r2.1 = "Thanks."
     ∧ (replaceNamePlaceholder r2.2 "So here\x27s the deal, \x7bname\x7d.").1
         = "So here\x27s the deal.") := by
  cases tr <;> simp only [limitedTracks] at htr <;> try exact absurd htr (by decide)
  all_goals
    refine ⟨?_, ?_, ?_, ?_⟩ <;>
      simp [replaceNamePlaceholder, limitedTracks] <;> decide

/-- `String.data` distributes over append. -/
theorem strDataAppend (s t : String) : (s ++ t).data = s.data ++ t.data := rfl

/-- `dropWhile` only stops at an element on which the predicate fails. -/
theorem headDropWhileFalse (p : Char → Bool) :
    ∀ (l : List Char) (c : Char) (t : List Char),
      l.dropWhile p = c :: t → p c = false := by
  intro l
  induction l with
  | nil => intro c t h; simp [List.dropWhile] at h
  | cons a rest ih =>
      intro c t h
      rw [List.dropWhile_cons] at h
      by_cases ha : p a = true
      · rw [if_pos ha] at h
        exact ih c t h
      · rw [if_neg ha] at h
        obtain ⟨rfl, -⟩ := List.cons.inj h
        exact Bool.eq_false_iff.mpr ha

/-- Dropping leading whitespace is the identity on a string that starts
with a non-whitespace character. -/
theorem trimLeftL_eq_self (c : Char) (t : List Char) (hc : isJsWs c = false) :
    trimLeftL (c :: t) = c :: t := by
  rw [trimLeftL, List.dropWhile_cons, if_neg]
  simp [hc]

/-- Dropping trailing whitespace is the identity on a string that ends
with a non-whitespace character. -/
theorem trimRightL_eq_self (l : List Char) (d : Char) (hd : isJsWs d = false) :
    trimRightL (l ++ [d]) = l ++ [d] := by
  rw [trimRightL, List.reverse_append]
  simp only [List.reverse_cons, List.reverse_nil, List.nil_append, List.cons_append,
    List.singleton_append]
  rw [List.dropWhile_cons, if_neg (by simp [hd])]
  simp

/-- JS `trim` is the identity on a string that starts and ends with
non-whitespace characters. -/
theorem jsTrimL_eq_self (l : List Char) (c : Char) (t : List Char)
    (hl : l = c :: t) (hc : isJsWs c = false)
    (m : List Char) (d : Char) (hl2 : l = m ++ [d]) (hd : isJsWs d = false) :
    jsTrimL l = l := by
  rw [jsTrimL, hl, trimLeftL_eq_self c t hc, ← hl, hl2, trimRightL_eq_self m d hd]

/-- A nonempty result of trailing-whitespace removal ends with a
non-whitespace character. -/
theorem trimRight_ends_nonWs (l : List Char) (h : trimRightL l ≠ []) :
    ∃ m d, trimRightL l = m ++ [d] ∧ isJsWs d = false := by
  rw [trimRightL] at h ⊢
  cases hE : l.reverse.dropWhile isJsWs with
  | nil => rw [hE] at h; simp at h
  | cons e t =>
      refine ⟨t.reverse, e, ?_, headDropWhileFalse isJsWs l.reverse e t hE⟩
      simp

/-- If a list ends with a non-whitespace character, so does anything
appended in front of it. -/
theorem endsNonWsAppend (x y : List Char)
    (h : ∃ m d, y = m ++ [d] ∧ isJsWs d = false) :
    ∃ m d, x ++ y = m ++ [d] ∧ isJsWs d = false := by
  obtain ⟨m, d, hy, hd⟩ := h
  exact ⟨x ++ m, d, by rw [hy, List.append_assoc], hd⟩

/-- Core containment lemma for the generated prompt: whenever the
capabilities clause is a double newline followed by a sentence ending in
a period, the trimmed prompt contains that sentence verbatim (the final
`trim` cannot touch it because the prompt starts with `'Y'` and ends
with a non-whitespace character in every case). -/
theorem generatedPromptContains (a : Answers) (sub : String)
    (hsplit : (capsClause a.capabilities).data = '\n' :: '\n' :: sub.data)
    (hdot : ∃ m, sub.data = m ++ ['.']) :
    strContains (generateSystemPrompt a) sub := by
  obtain ⟨msub, hmsub⟩ := hdot
  have hdata : (promptBody a).data
      = "You are an AI assistant".data ++ ((nameClause a).data
        ++ ((domainClause a).data ++ (".".data ++ ((styleClause a).data
        ++ ((capsClause a.capabilities).data ++ (customClause a).data))))) := by
    simp [promptBody, strDataAppend, List.append_assoc]
  have hstart : ∃ t, (promptBody a).data = 'Y' :: t := by
    rw [hdata]
    exact ⟨_, rfl⟩
  have hlast : ∃ m d, (promptBody a).data = m ++ [d] ∧ isJsWs d = false := by
    rw [hdata]
    apply endsNonWsAppend
    apply endsNonWsAppend
    apply endsNonWsAppend
    apply endsNonWsAppend
    apply endsNonWsAppend
    by_cases hcust : a.custom ≠ "" ∧ jsTrim a.custom ≠ ""
    · have hG : customClause a = "\n\nAdditional guidance: " ++ jsTrim a.custom := by
        rw [customClause, if_pos hcust]
      rw [hG, strDataAppend]
      apply endsNonWsAppend
      apply endsNonWsAppend
      have hne : trimRightL (trimLeftL a.custom.data) ≠ [] := by
        intro hnil
        apply hcust.2
        have : jsTrim a.custom = ⟨[]⟩ := by
          rw [jsTrim]
          show String.mk (jsTrimL a.custom.data) = _
          rw [jsTrimL, hnil]
        exact this.trans rfl
      exact trimRight_ends_nonWs (trimLeftL a.custom.data) hne
    · have hG : customClause a = "" := by rw [customClause, if_neg hcust]
      rw [hG]
      show ∃ m d, (capsClause a.capabilities).data ++ [] = m ++ [d] ∧ isJsWs d = false
      rw [List.append_nil, hsplit, hmsub]
      exact ⟨'\n' :: '\n' :: msub, '.', rfl, by decide⟩
  obtain ⟨t0, hstart'⟩ := hstart
  obtain ⟨m0, d0, hlast', hd0⟩ := hlast
  have htrim : jsTrimL (promptBody a).data = (promptBody a).data :=
    jsTrimL_eq_self (promptBody a).data 'Y' t0 hstart' (by decide) m0 d0 hlast' hd0
  have hgen : (generateSystemPrompt a).data = (promptBody a).data := by
    show jsTrimL (promptBody a).data = (promptBody a).data
    exact htrim
  refine ⟨"You are an AI assistant".data ++ (nameClause a).data
    ++ (domainClause a).data ++ ".".data ++ (styleClause a).data ++ ['\n', '\n'],
    (customClause a).data, ?_⟩
  rw [hgen, hdata, hsplit]
  simp [List.append_assoc]

/-- Claim C4: the capabilities clause of the generated prompt follows
the stated conjunction grammar — for `["Coding", "Research", "Writing"]`
the prompt contains `"You excel at coding, research, and writing."`
(lowercased, Oxford comma); for one capability it contains
`"You specialize in <cap>."` with the capability lowercased; for two it
joins them with `" and "` — whatever the other answers are. -/
theorem C4_capabilities_grammar :
    (∀ a : Answers, a.capabilities = ["Coding", "Research", "Writing"] →
        strContains (generateSystemPrompt a)
          "You excel at coding, research, and writing.")
    ∧ (∀ (a : Answers) (c : String), a.capabilities = [c] →
        strContains (generateSystemPrompt a)
          ("You specialize in " ++ jsToLower c ++ "."))
    ∧ (∀ (a : Answers) (c1 c2 : String), a.capabilities = [c1, c2] →
        strContains (generateSystemPrompt a)
          ("You excel at " ++ jsToLower c1 ++ " and " ++ jsToLower c2 ++ ".")) := by
  refine ⟨?_, ?_, ?_⟩
  · intro a h
    apply generatedPromptContains
    · rw [h]; decide
    · exact ⟨"You excel at coding, research, and writing".data, by decide⟩
  · intro a c h
    apply generatedPromptContains
    · rw [h]
      show ("\n\nYou specialize in " ++ jsToLower c ++ ".").data = _
      have h1 : "\n\nYou specialize in ".data
          = '\n' :: '\n' :: "You specialize in ".data := by decide
      simp [strDataAppend, h1, List.append_assoc]
    · refine ⟨"You specialize in ".data ++ (jsToLower c).data, ?_⟩
      have h2 : ".".data = ['.'] := by decide
      simp [strDataAppend, h2, List.append_assoc]
  · intro a c1 c2 h
    apply generatedPromptContains
    · rw [h]
      show ("\n\nYou excel at " ++ jsToLower c1 ++ " and " ++ jsToLower c2 ++ ".").data = _
      have h1 : "\n\nYou excel at ".data = '\n' :: '\n' :: "You excel at ".data := by
        decide
      simp [strDataAppend, h1, List.append_assoc]
    · refine ⟨"You excel at ".data ++ (jsToLower c1).data ++ " and ".data
        ++ (jsToLower c2).data, ?_⟩
      have h2 : ".".data = ['.'] := by decide
      simp [strDataAppend, h2, List.append_assoc]

/-- A concrete answer set used as witness data. -/
def sampleAnswers : Answers :=
  { name := "Rishi", domain := "Software Development / Tech",
    style := "Professional & Concise",
    capabilities := ["Coding", "Research", "Writing"],
    identity := { preferred_name := "Rishi", timezone := "EST" },
    custom := "" }

set_option maxRecDepth 4000 in
/-- Witness for C4: at `sampleAnswers` the generated prompt evaluates to
the expected text and, by the theorem, contains the Oxford-comma
capabilities sentence; the one- and two-capability branches are
witnessed on concrete answer sets as well. -/
theorem C4_capabilities_grammar_witness :
    generateSystemPrompt sampleAnswers
      = "You are an AI assistant for Rishi, working in software development and technology.\n\nMaintain a professional, concise tone. Be direct and clear, providing exactly what\x27s needed without unnecessary elaboration.\n\nYou excel at coding, research, and writing."
    ∧ strContains (generateSystemPrompt sampleAnswers)
        "You excel at coding, research, and writing."
    ∧ strContains (generateSystemPrompt { capabilities := ["Coding"] })
        "You specialize in coding."
    ∧ strContains (generateSystemPrompt { capabilities := ["Coding", "Research"] })
        "You excel at coding and research." := by
  refine ⟨by decide, C4_capabilities_grammar.1 sampleAnswers rfl, ?_, ?_⟩
  · have h := C4_capabilities_grammar.2.1 { capabilities := ["Coding"] } "Coding" rfl
    simpa using h
  · have h := C4_capabilities_grammar.2.2 { capabilities := ["Coding", "Research"] }
      "Coding" "Research" rfl
    simpa using h

/-- Witness for C5 on the `context` track. -/
theorem C5_name_once_per_track_witness :
    (replaceNamePlaceholder
      { firstRunTutorial := true, track := Track.context, storedName := "Rishi",
        nameUsed := fun _ => false } "Thanks, \x7bname\x7d.").1
      = "Thanks, Rishi." := by
  exact (C5_name_once_per_track Track.context true rfl).1

/-- Witness for C9 at a concrete staged review state. -/
theorem C9_commit_failure_retryable_witness :
    (finalReviewConfirmClick
      { stagedPrompt := "You are an AI assistant for Rishi.",
        stagedTierA := [("preferred_name", "Rishi"), ("timezone", "EST")],
        stagedTierB := [("projects", "Localis")],
        btnEnabled := false, errorShown := false, overlayOpen := true,
        tutorialEnded := false, firstRunComplete := false } false).stagedPrompt
      = "You are an AI assistant for Rishi." := by
  exact (C9_commit_failure_retryable
    { stagedPrompt := "You are an AI assistant for Rishi.",
      stagedTierA := [("preferred_name", "Rishi"), ("timezone", "EST")],
      stagedTierB := [("projects", "Localis")],
      btnEnabled := false, errorShown := false, overlayOpen := true,
      tutorialEnded := false, firstRunComplete := false } rfl rfl).2.2.2.1

end Localis
